import Mathlib

/-
Verification of the ad9361-iio crate: a shallow embedding of its data model
and operations, translated from the Rust sources (src/lib.rs, src/channel.rs,
src/error.rs and the mode-enumeration modules), together with theorems about
the spec's testable properties.

External hardware effects (the industrial-io access layer) are represented by
oracles: a function argument stands for the access layer's response to a given
call, and every operation additionally returns the list of hardware accesses
it performed, so that the claims about "no hardware access on rejection" can
be stated and proved.
-/

/-- DevicePart from src/error.rs: which logical device a not-found error is about. -/
inductive DevicePart
  | Phy
  | Dds
  | Lpc
deriving DecidableEq

/-- Opaque error of the industrial-io access layer (industrial_io::Error);
only its identity matters to the core, so it is a tagged value. -/
structure IIOErr where
  code : Nat
deriving DecidableEq

/-- Error from src/error.rs. The f64 payload of OutOfRangeFloatValue is elided
(floating point is not modelled; no claim inspects it). -/
inductive Error
  | NoSuchDevice (part : DevicePart)
  | NoChannelOnDevice
  | GeneralIIOError (e : IIOErr)
  | NoRxBuff
  | NoTxBuff
  | UnexpectedStringValue (s : String)
  | OutOfRangeIntValue (v : Int)
  | OutOfRangeFloatValue
deriving DecidableEq

/-- CalibMode from src/calib_mode.rs. -/
inductive CalibMode
  | Auto
  | Manual
  | ManualTxQuad
  | TxQuad
  | RFdcOffs
  | RSSIGainStep
deriving DecidableEq

/-- CalibMode::to_str from src/calib_mode.rs. -/
def CalibMode.toStr : CalibMode → String
  | .Auto => "auto"
  | .Manual => "manual"
  | .ManualTxQuad => "manual_tx_quad"
  | .TxQuad => "tx_quad"
  | .RFdcOffs => "rf_dc_offs"
  | .RSSIGainStep => "rssi_gain_step"

/-- TryFrom String for CalibMode from src/calib_mode.rs. -/
def CalibMode.tryFrom (s : String) : Except Error CalibMode :=
  match s with
  | "auto" => .ok .Auto
  | "manual" => .ok .Manual
  | "manual_tx_quad" => .ok .ManualTxQuad
  | "tx_quad" => .ok .TxQuad
  | "rf_dc_offs" => .ok .RFdcOffs
  | "rssi_gain_step" => .ok .RSSIGainStep
  | val => .error (.UnexpectedStringValue val)

/-- ENSMMode from src/ensm_mode.rs. -/
inductive ENSMMode
  | Sleep
  | Wait
  | Alert
  | FDD
  | PinCtrl
  | PinCtrlFDDIndep
deriving DecidableEq

/-- ENSMMode::to_str from src/ensm_mode.rs. -/
def ENSMMode.toStr : ENSMMode → String
  | .Sleep => "sleep"
  | .Wait => "wait"
  | .Alert => "alert"
  | .FDD => "fdd"
  | .PinCtrl => "pinctrl"
  | .PinCtrlFDDIndep => "pinctrl_fdd_indep"

/-- TryFrom String for ENSMMode from src/ensm_mode.rs. -/
def ENSMMode.tryFrom (s : String) : Except Error ENSMMode :=
  match s with
  | "sleep" => .ok .Sleep
  | "wait" => .ok .Wait
  | "alert" => .ok .Alert
  | "fdd" => .ok .FDD
  | "pinctrl" => .ok .PinCtrl
  | "pinctrl_fdd_indep" => .ok .PinCtrlFDDIndep
  | val => .error (.UnexpectedStringValue val)

/-- GainControlMode from src/gain_control_mode.rs. -/
inductive GainControlMode
  | FastAttack
  | Hybrid
  | Manual
  | SlowAttack
deriving DecidableEq

/-- GainControlMode::to_str from src/gain_control_mode.rs. -/
def GainControlMode.toStr : GainControlMode → String
  | .FastAttack => "fast_attack"
  | .Hybrid => "hybrid"
  | .Manual => "manual"
  | .SlowAttack => "slow_attack"

/-- TryFrom String for GainControlMode from src/gain_control_mode.rs. -/
def GainControlMode.tryFrom (s : String) : Except Error GainControlMode :=
  match s with
  | "fast_attack" => .ok .FastAttack
  | "hybrid" => .ok .Hybrid
  | "manual" => .ok .Manual
  | "slow_attack" => .ok .SlowAttack
  | val => .error (.UnexpectedStringValue val)

/-- RxPortSelect from src/rx_port_select.rs (identical copy in src/lib.rs). -/
inductive RxPortSelect
  | ABalanced
  | AN
  | AP
  | BBalanced
  | BN
  | BP
  | CBalanced
  | CN
  | CP
  | TxMonitor1
  | TxMonitor12
  | TxMonitor2
deriving DecidableEq

/-- RxPortSelect::to_str from src/rx_port_select.rs. -/
def RxPortSelect.toStr : RxPortSelect → String
  | .ABalanced => "A_BALANCED"
  | .AN => "A_N"
  | .AP => "A_P"
  | .BBalanced => "B_BALANCED"
  | .BN => "B_N"
  | .BP => "B_P"
  | .CBalanced => "C_BALANCED"
  | .CN => "C_N"
  | .CP => "C_P"
  | .TxMonitor1 => "TX_MONITOR1"
  | .TxMonitor12 => "TX_MONITOR1_2"
  | .TxMonitor2 => "TX_MONITOR2"

/-- TryFrom String for RxPortSelect from src/rx_port_select.rs. -/
def RxPortSelect.tryFrom (s : String) : Except Error RxPortSelect :=
  match s with
  | "A_BALANCED" => .ok .ABalanced
  | "A_N" => .ok .AN
  | "A_P" => .ok .AP
  | "B_BALANCED" => .ok .BBalanced
  | "B_N" => .ok .BN
  | "B_P" => .ok .BP
  | "C_BALANCED" => .ok .CBalanced
  | "C_N" => .ok .CN
  | "C_P" => .ok .CP
  | "TX_MONITOR1" => .ok .TxMonitor1
  | "TX_MONITOR1_2" => .ok .TxMonitor12
  | "TX_MONITOR2" => .ok .TxMonitor2
  | val => .error (.UnexpectedStringValue val)

/-- TxPortSelect from src/tx_port_select.rs (identical copy in src/lib.rs). -/
inductive TxPortSelect
  | A
  | B
deriving DecidableEq

/-- TxPortSelect::to_str from src/tx_port_select.rs. -/
def TxPortSelect.toStr : TxPortSelect → String
  | .A => "A"
  | .B => "B"

/-- TryFrom String for TxPortSelect from src/tx_port_select.rs. -/
def TxPortSelect.tryFrom (s : String) : Except Error TxPortSelect :=
  match s with
  | "A" => .ok .A
  | "B" => .ok .B
  | val => .error (.UnexpectedStringValue val)

/-- Token table of CalibMode: exactly the string patterns its TryFrom accepts. -/
def calibTokens : List String :=
  ["auto", "manual", "manual_tx_quad", "tx_quad", "rf_dc_offs", "rssi_gain_step"]

/-- Token table of ENSMMode: exactly the string patterns its TryFrom accepts. -/
def ensmTokens : List String :=
  ["sleep", "wait", "alert", "fdd", "pinctrl", "pinctrl_fdd_indep"]

/-- Token table of GainControlMode: exactly the string patterns its TryFrom accepts. -/
def gainTokens : List String :=
  ["fast_attack", "hybrid", "manual", "slow_attack"]

/-- Token table of RxPortSelect: exactly the string patterns its TryFrom accepts. -/
def rxPortTokens : List String :=
  ["A_BALANCED", "A_N", "A_P", "B_BALANCED", "B_N", "B_P",
   "C_BALANCED", "C_N", "C_P", "TX_MONITOR1", "TX_MONITOR1_2", "TX_MONITOR2"]

/-- Token table of TxPortSelect: exactly the string patterns its TryFrom accepts. -/
def txPortTokens : List String :=
  ["A", "B"]

/-- C5: for every mode enumeration (calibration mode, enable-state-machine mode,
gain-control mode, receive port select, transmit port select) and every variant v,
parsing the rendered token yields v back; rendering is total (toStr is a total
function on each enumeration, so it succeeds on every variant). -/
theorem c5_enum_roundtrip :
    (∀ v : CalibMode, CalibMode.tryFrom v.toStr = .ok v)
    ∧ (∀ v : ENSMMode, ENSMMode.tryFrom v.toStr = .ok v)
    ∧ (∀ v : GainControlMode, GainControlMode.tryFrom v.toStr = .ok v)
    ∧ (∀ v : RxPortSelect, RxPortSelect.tryFrom v.toStr = .ok v)
    ∧ (∀ v : TxPortSelect, TxPortSelect.tryFrom v.toStr = .ok v) := by
  refine ⟨?_, ?_, ?_, ?_, ?_⟩ <;> intro v <;> cases v <;> rfl

/-- C6: for every mode enumeration and every input string t outside its fixed
token table (exact-match, case-sensitive), parsing t fails with
UnexpectedStringValue carrying exactly t. -/
theorem c6_parse_rejects_unknown_tokens :
    (∀ t : String, t ∉ calibTokens →
      CalibMode.tryFrom t = .error (.UnexpectedStringValue t))
    ∧ (∀ t : String, t ∉ ensmTokens →
      ENSMMode.tryFrom t = .error (.UnexpectedStringValue t))
    ∧ (∀ t : String, t ∉ gainTokens →
      GainControlMode.tryFrom t = .error (.UnexpectedStringValue t))
    ∧ (∀ t : String, t ∉ rxPortTokens →
      RxPortSelect.tryFrom t = .error (.UnexpectedStringValue t))
    ∧ (∀ t : String, t ∉ txPortTokens →
      TxPortSelect.tryFrom t = .error (.UnexpectedStringValue t)) := by
  refine ⟨?_, ?_, ?_, ?_, ?_⟩ <;> intro t ht <;>
    first
      | (unfold CalibMode.tryFrom; split <;>
          first
            | rfl
            | exact absurd (by simp [calibTokens]) ht)
      | (unfold ENSMMode.tryFrom; split <;>
          first
            | rfl
            | exact absurd (by simp [ensmTokens]) ht)
      | (unfold GainControlMode.tryFrom; split <;>
          first
            | rfl
            | exact absurd (by simp [gainTokens]) ht)
      | (unfold RxPortSelect.tryFrom; split <;>
          first
            | rfl
            | exact absurd (by simp [rxPortTokens]) ht)
      | (unfold TxPortSelect.tryFrom; split <;>
          first
            | rfl
            | exact absurd (by simp [txPortTokens]) ht)

/-- Witness for C6: the unknown token "bogus" is rejected by every enumeration,
with the error carrying that exact token. -/
theorem c6_parse_rejects_unknown_tokens_witness :
    CalibMode.tryFrom "bogus" = .error (.UnexpectedStringValue "bogus")
    ∧ ENSMMode.tryFrom "bogus" = .error (.UnexpectedStringValue "bogus")
    ∧ GainControlMode.tryFrom "bogus" = .error (.UnexpectedStringValue "bogus")
    ∧ RxPortSelect.tryFrom "bogus" = .error (.UnexpectedStringValue "bogus")
    ∧ TxPortSelect.tryFrom "bogus" = .error (.UnexpectedStringValue "bogus") :=
  ⟨c6_parse_rejects_unknown_tokens.1 "bogus" (by decide),
   c6_parse_rejects_unknown_tokens.2.1 "bogus" (by decide),
   c6_parse_rejects_unknown_tokens.2.2.1 "bogus" (by decide),
   c6_parse_rejects_unknown_tokens.2.2.2.1 "bogus" (by decide),
   c6_parse_rejects_unknown_tokens.2.2.2.2 "bogus" (by decide)⟩

/-- Hardware access performed through the device access layer by a channel or
transceiver operation. Operations return the list of accesses they made, in
order, so that "no hardware access" is the empty list. -/
inductive HwEvent
  | attrWriteInt (attr : String) (v : Int)
  | attrWriteStr (attr : String) (s : String)
  | bufRefill
  | bufPush
  | chanRead (lane : Fin 2) (isI : Bool)
  | chanWrite (lane : Fin 2) (isI : Bool)
  | chanEnable (lane : Fin 2) (isI : Bool)
  | chanDisable (lane : Fin 2) (isI : Bool)
  | releaseBuffer
deriving DecidableEq

/-- Response oracle for attr_write_int on a control channel: given the attribute
name and value, the access layer either succeeds or fails with an iio error. -/
def WriteOracle : Type := String → Int → Except IIOErr Unit

/-- Shared helper: perform attr_write_int through the oracle, recording the
access and mapping an access-layer failure into Error::GeneralIIOError, as the
question-mark operator with the From impl in src/error.rs does. -/
def attrWriteInt (wr : WriteOracle) (attr : String) (v : Int) :
    Except Error Unit × List HwEvent :=
  match wr attr v with
  | .ok _ => (.ok (), [.attrWriteInt attr v])
  | .error e => (.error (.GeneralIIOError e), [.attrWriteInt attr v])

/-- RF_BANDWIDTH_RANGE from src/channel.rs: the half-open range 200000..56000000. -/
def rfBandwidthContains (b : Int) : Prop := 200000 ≤ b ∧ b < 56000000

instance (b : Int) : Decidable (rfBandwidthContains b) := by
  unfold rfBandwidthContains; infer_instance

/-- SAMPLING_FREQUENCY_RANGE from src/channel.rs: the half-open range 2083333..61440000. -/
def samplingFrequencyContains (s : Int) : Prop := 2083333 ≤ s ∧ s < 61440000

instance (s : Int) : Decidable (samplingFrequencyContains s) := by
  unfold samplingFrequencyContains; infer_instance

/-- Channel::set_rf_bandwidth from src/channel.rs: validate against
RF_BANDWIDTH_RANGE, then write the rf_bandwidth attribute; out of range is
rejected with OutOfRangeIntValue before any hardware access. The oracle wr
stands for attr_write_int on this channel's control sub-channel. -/
def Channel.set_rf_bandwidth (wr : WriteOracle) (bandwidth : Int) :
    Except Error Unit × List HwEvent :=
  if rfBandwidthContains bandwidth then
    attrWriteInt wr "rf_bandwidth" bandwidth
  else
    (.error (.OutOfRangeIntValue bandwidth), [])

/-- Channel::set_sampling_frequency from src/channel.rs: validate against
SAMPLING_FREQUENCY_RANGE, then write the sampling_frequency attribute. -/
def Channel.set_sampling_frequency (wr : WriteOracle) (samplerate : Int) :
    Except Error Unit × List HwEvent :=
  if samplingFrequencyContains samplerate then
    attrWriteInt wr "sampling_frequency" samplerate
  else
    (.error (.OutOfRangeIntValue samplerate), [])

/-- Transceiver::set_lo from src/lib.rs: writes the frequency attribute of the
local-oscillator channel unconditionally; the source performs no range check. -/
def Transceiver.set_lo (wr : WriteOracle) (freq : Int) :
    Except Error Unit × List HwEvent :=
  attrWriteInt wr "frequency" freq

/-- Oracle that always reports success for an attribute write. -/
def wrOk : WriteOracle := fun _ _ => .ok ()

/-- C3: set_rf_bandwidth performs the hardware attribute write exactly when the
value lies in the half-open range 200000..56000000 and otherwise returns
OutOfRangeIntValue carrying the rejected value with no hardware access;
set_sampling_frequency has the same contract over 2083333..61440000. -/
theorem c3_channel_range_validation (wr : WriteOracle) (b s : Int) :
    ((Channel.set_rf_bandwidth wr b).2 = [.attrWriteInt "rf_bandwidth" b]
        ↔ rfBandwidthContains b)
    ∧ (¬ rfBandwidthContains b →
        Channel.set_rf_bandwidth wr b = (.error (.OutOfRangeIntValue b), []))
    ∧ ((Channel.set_sampling_frequency wr s).2 = [.attrWriteInt "sampling_frequency" s]
        ↔ samplingFrequencyContains s)
    ∧ (¬ samplingFrequencyContains s →
        Channel.set_sampling_frequency wr s = (.error (.OutOfRangeIntValue s), [])) := by
  unfold Channel.set_rf_bandwidth Channel.set_sampling_frequency attrWriteInt
  refine ⟨?_, ?_, ?_, ?_⟩
  · split
    · rename_i h
      cases wr "rf_bandwidth" b <;> simpa using h
    · rename_i h
      simpa using h
  · intro h
    rw [if_neg h]
  · split
    · rename_i h
      cases wr "sampling_frequency" s <;> simpa using h
    · rename_i h
      simpa using h
  · intro h
    rw [if_neg h]

/-- Witness for C3: the in-range value 300000 is written to hardware while the
out-of-range value 0 is rejected with OutOfRangeIntValue 0 and no access, and
likewise 2083333 versus 0 for the sampling frequency. -/
theorem c3_channel_range_validation_witness :
    (Channel.set_rf_bandwidth wrOk 300000).2 = [.attrWriteInt "rf_bandwidth" 300000]
    ∧ Channel.set_rf_bandwidth wrOk 0 = (.error (.OutOfRangeIntValue 0), [])
    ∧ (Channel.set_sampling_frequency wrOk 2083333).2
        = [.attrWriteInt "sampling_frequency" 2083333]
    ∧ Channel.set_sampling_frequency wrOk 0 = (.error (.OutOfRangeIntValue 0), []) :=
  ⟨(c3_channel_range_validation wrOk 300000 0).1.mpr (by decide),
   (c3_channel_range_validation wrOk 0 0).2.1 (by decide),
   (c3_channel_range_validation wrOk 0 2083333).2.2.1.mpr (by decide),
   (c3_channel_range_validation wrOk 0 0).2.2.2 (by decide)⟩

/-- Counterexample to C4: the frequency 0 lies outside the claimed range
46875001..6000000000, yet set_lo with a succeeding access layer performs the
hardware write and returns Ok instead of returning OutOfRangeIntValue 0 with
no hardware access. -/
theorem c4_set_lo_counterexample :
    Transceiver.set_lo wrOk 0 = (.ok (), [.attrWriteInt "frequency" 0])
    ∧ Transceiver.set_lo wrOk 0 ≠ (.error (.OutOfRangeIntValue 0), []) := by
  refine ⟨rfl, ?_⟩
  simp [Transceiver.set_lo, attrWriteInt, wrOk]

/-- C4 amended: set_lo performs the hardware write of the frequency attribute
unconditionally for every i64 frequency, with no range validation; it returns
Ok exactly when the underlying attribute write succeeds, maps an access-layer
failure to GeneralIIOError, and never returns an out-of-range error. -/
theorem c4_set_lo_unvalidated (wr : WriteOracle) (freq : Int) :
    (Transceiver.set_lo wr freq).2 = [.attrWriteInt "frequency" freq]
    ∧ (wr "frequency" freq = .ok () → (Transceiver.set_lo wr freq).1 = .ok ())
    ∧ (∀ e, wr "frequency" freq = .error e →
        (Transceiver.set_lo wr freq).1 = .error (.GeneralIIOError e))
    ∧ ∀ v, (Transceiver.set_lo wr freq).1 ≠ .error (.OutOfRangeIntValue v) := by
  unfold Transceiver.set_lo attrWriteInt
  cases h : wr "frequency" freq with
  | ok u =>
    refine ⟨rfl, ?_, ?_, ?_⟩
    · intro hc
      rfl
    · intro e he
      simp at he
    · intro v
      simp
  | error e =>
    refine ⟨rfl, ?_, ?_, ?_⟩
    · intro hc
      simp at hc
    · intro e2 he
      injection he with h2
      subst h2
      rfl
    · intro v
      simp

/-- Witness for C4 amended: at frequency 0 with a succeeding access layer, the
write is performed and the call returns Ok. -/
theorem c4_set_lo_unvalidated_witness :
    (Transceiver.set_lo wrOk 0).2 = [.attrWriteInt "frequency" 0]
    ∧ (Transceiver.set_lo wrOk 0).1 = .ok () :=
  ⟨(c4_set_lo_unvalidated wrOk 0).1,
   (c4_set_lo_unvalidated wrOk 0).2.1 rfl⟩

/-- Modelled from the spec: the facade's oscillator fine-trim setter is not in
the source files provided (the spec documents it as a facade device-wide
setter with the validated range 1..8192, half-open). Per the spec it rejects
an out-of-range value with an out-of-range error carrying the value, before
any hardware access, and otherwise performs the attribute write. -/
def AD9361.set_oscillator_fine (wr : WriteOracle) (v : Int) :
    Except Error Unit × List HwEvent :=
  if 1 ≤ v ∧ v < 8192 then
    attrWriteInt wr "xo_correction_fine" v
  else
    (.error (.OutOfRangeIntValue v), [])

/-- Modelled from the spec: the facade's oscillator coarse-trim setter, as
set_oscillator_fine but over the validated range 1..64, half-open. -/
def AD9361.set_oscillator_coarse (wr : WriteOracle) (v : Int) :
    Except Error Unit × List HwEvent :=
  if 1 ≤ v ∧ v < 64 then
    attrWriteInt wr "xo_correction_coarse" v
  else
    (.error (.OutOfRangeIntValue v), [])

/-- C9: setOscillatorFine performs the hardware write exactly when v lies in
the half-open range 1..8192 and otherwise fails with an out-of-range error
carrying v and no hardware write; setOscillatorCoarse has the same contract
over 1..64. -/
theorem c9_oscillator_trim_range (wr : WriteOracle) (v w : Int) :
    ((AD9361.set_oscillator_fine wr v).2 ≠ [] ↔ (1 ≤ v ∧ v < 8192))
    ∧ (¬ (1 ≤ v ∧ v < 8192) →
        AD9361.set_oscillator_fine wr v = (.error (.OutOfRangeIntValue v), []))
    ∧ ((AD9361.set_oscillator_coarse wr w).2 ≠ [] ↔ (1 ≤ w ∧ w < 64))
    ∧ (¬ (1 ≤ w ∧ w < 64) →
        AD9361.set_oscillator_coarse wr w = (.error (.OutOfRangeIntValue w), [])) := by
  unfold AD9361.set_oscillator_fine AD9361.set_oscillator_coarse attrWriteInt
  refine ⟨?_, ?_, ?_, ?_⟩
  · split
    · rename_i h
      cases wr "xo_correction_fine" v <;> simpa using h
    · rename_i h
      simpa using h
  · intro h
    rw [if_neg h]
  · split
    · rename_i h
      cases wr "xo_correction_coarse" w <;> simpa using h
    · rename_i h
      simpa using h
  · intro h
    rw [if_neg h]

/-- Witness for C9: 1 is accepted (write performed) by both trims while 0 is
rejected by both with an out-of-range error carrying 0 and no hardware write. -/
theorem c9_oscillator_trim_range_witness :
    (AD9361.set_oscillator_fine wrOk 1).2 ≠ []
    ∧ AD9361.set_oscillator_fine wrOk 0 = (.error (.OutOfRangeIntValue 0), [])
    ∧ (AD9361.set_oscillator_coarse wrOk 1).2 ≠ []
    ∧ AD9361.set_oscillator_coarse wrOk 0 = (.error (.OutOfRangeIntValue 0), []) :=
  ⟨(c9_oscillator_trim_range wrOk 1 1).1.mpr (by decide),
   (c9_oscillator_trim_range wrOk 0 0).2.1 (by decide),
   (c9_oscillator_trim_range wrOk 1 1).2.2.1.mpr (by decide),
   (c9_oscillator_trim_range wrOk 0 0).2.2.2 (by decide)⟩

/-- Hardware sample buffer, as allocated by Device::create_buffer: it is opaque
to the core beyond the parameters of its allocation. -/
structure Buffer where
  sampleCount : Nat
  cyclic : Bool
deriving DecidableEq

/-- Enable state of one lane's I and Q data sub-channels (the only mutable
state the core touches through enable and disable). -/
structure Lane where
  iEnabled : Bool
  qEnabled : Bool
deriving DecidableEq

/-- Mutable state of a Transceiver from src/lib.rs: the optional hardware
buffer it owns, plus the enable flags of its two lanes' data sub-channels.
The immutable handles (device, lo, control channels) act only through the
oracles, so they carry no state here. -/
structure TransceiverSt where
  buffer : Option Buffer
  lanes : Fin 2 → Lane

/-- Signal from src/lib.rs: one lane's I and Q sample sequences (Vec of i16,
modelled as lists of integers supplied by the access layer). -/
structure Signal where
  i_channel : List Int
  q_channel : List Int
deriving DecidableEq

/-- Access-layer responses available to a receive Transceiver: the result of
Buffer::refill and of Channel::read against the current buffer for each lane's
I and Q sub-channels. -/
structure RxOracle where
  refill : Except IIOErr Nat
  readChan : Fin 2 → Bool → Except IIOErr (List Int)

/-- Access-layer responses available to a transmit Transceiver: the result of
Buffer::push and of Channel::write against the current buffer for each lane's
I and Q sub-channels. -/
structure TxOracle where
  push : Except IIOErr Nat
  writeChan : Fin 2 → Bool → List Int → Except IIOErr Nat

/-- Transceiver::create_buffer from src/lib.rs: asks the device to allocate a
buffer (the alloc oracle stands for Device::create_buffer); on success the new
buffer is stored, replacing any previous one; on failure the question-mark
operator returns the error and the state is left unchanged. -/
def Transceiver.create_buffer (alloc : Nat → Bool → Except IIOErr Buffer)
    (sample_count : Nat) (cyclic : Bool) (st : TransceiverSt) :
    Except Error Unit × TransceiverSt :=
  match alloc sample_count cyclic with
  | .ok buffer => (.ok (), { st with buffer := some buffer })
  | .error e => (.error (.GeneralIIOError e), st)

/-- Transceiver::destroy_buffer from src/lib.rs: drops the held buffer. -/
def Transceiver.destroy_buffer (st : TransceiverSt) : TransceiverSt :=
  { st with buffer := none }

/-- Transceiver::disable from src/lib.rs: disables the I then the Q data
sub-channel of the given lane. -/
def Transceiver.disable (st : TransceiverSt) (chan_id : Fin 2) :
    TransceiverSt × List HwEvent :=
  ({ st with lanes := Function.update st.lanes chan_id ⟨false, false⟩ },
   [.chanDisable chan_id true, .chanDisable chan_id false])

/-- Transceiver::enable from src/lib.rs: enables the I then the Q data
sub-channel of the given lane. -/
def Transceiver.enable (st : TransceiverSt) (chan_id : Fin 2) :
    TransceiverSt × List HwEvent :=
  ({ st with lanes := Function.update st.lanes chan_id ⟨true, true⟩ },
   [.chanEnable chan_id true, .chanEnable chan_id false])

/-- Transceiver of Rx, pool_samples_to_buff from src/lib.rs: with no buffer it
fails immediately with NoRxBuff and touches no hardware; otherwise it refills
the buffer from the device and returns the transferred count. -/
def Transceiver.pool_samples_to_buff (o : RxOracle) (st : TransceiverSt) :
    Except Error Nat × List HwEvent :=
  match st.buffer with
  | none => (.error .NoRxBuff, [])
  | some _ =>
    match o.refill with
    | .ok result => (.ok result, [.bufRefill])
    | .error e => (.error (.GeneralIIOError e), [.bufRefill])

/-- Transceiver of Rx, read from src/lib.rs: with no buffer it fails
immediately with NoRxBuff and touches no hardware; otherwise it reads the I
sub-channel and then the Q sub-channel of the given lane from the buffer,
stopping at the first access-layer failure. -/
def Transceiver.read (o : RxOracle) (st : TransceiverSt) (chan_id : Fin 2) :
    Except Error Signal × List HwEvent :=
  match st.buffer with
  | none => (.error .NoRxBuff, [])
  | some _ =>
    match o.readChan chan_id true with
    | .error e => (.error (.GeneralIIOError e), [.chanRead chan_id true])
    | .ok i_channel =>
      match o.readChan chan_id false with
      | .error e =>
        (.error (.GeneralIIOError e), [.chanRead chan_id true, .chanRead chan_id false])
      | .ok q_channel =>
        (.ok ⟨i_channel, q_channel⟩, [.chanRead chan_id true, .chanRead chan_id false])

/-- Transceiver of Tx, push_samples_to_device from src/lib.rs: with no buffer
it fails immediately with NoTxBuff and touches no hardware; otherwise it
pushes the buffer to the device and returns the transferred count. -/
def Transceiver.push_samples_to_device (o : TxOracle) (st : TransceiverSt) :
    Except Error Nat × List HwEvent :=
  match st.buffer with
  | none => (.error .NoTxBuff, [])
  | some _ =>
    match o.push with
    | .ok result => (.ok result, [.bufPush])
    | .error e => (.error (.GeneralIIOError e), [.bufPush])

/-- Transceiver of Tx, write from src/lib.rs: with no buffer it fails
immediately with NoTxBuff and touches no hardware; otherwise it writes the
signal's I component and then its Q component into the buffer for the given
lane, stopping at the first access-layer failure, and returns both counts. -/
def Transceiver.write (o : TxOracle) (st : TransceiverSt) (chan_id : Fin 2)
    (signal : Signal) : Except Error (Nat × Nat) × List HwEvent :=
  match st.buffer with
  | none => (.error .NoTxBuff, [])
  | some _ =>
    match o.writeChan chan_id true signal.i_channel with
    | .error e => (.error (.GeneralIIOError e), [.chanWrite chan_id true])
    | .ok write_i =>
      match o.writeChan chan_id false signal.q_channel with
      | .error e =>
        (.error (.GeneralIIOError e), [.chanWrite chan_id true, .chanWrite chan_id false])
      | .ok write_q =>
        (.ok (write_i, write_q), [.chanWrite chan_id true, .chanWrite chan_id false])

/-- Drop for Transceiver from src/lib.rs: sets the buffer to None (releasing
the held buffer, if any), then disables lane 0, then disables lane 1. -/
def Transceiver.drop (st : TransceiverSt) : TransceiverSt × List HwEvent :=
  let releaseEvents : List HwEvent :=
    match st.buffer with
    | some _ => [.releaseBuffer]
    | none => []
  let st1 : TransceiverSt := { st with buffer := none }
  let s2 := Transceiver.disable st1 0
  let s3 := Transceiver.disable s2.1 1
  (s3.1, releaseEvents ++ s2.2 ++ s3.2)

/-- C1: with no buffer allocated, each streaming operation — the receive
refill (pool_samples_to_buff), the receive read, the transmit write and the
transmit push (push_samples_to_device) — returns the direction-specific
buffer-not-allocated error (NoRxBuff for receive, NoTxBuff for transmit)
without performing any hardware access, for either lane index. -/
theorem c1_nobuffer_streaming_fails (orx : RxOracle) (otx : TxOracle)
    (st : TransceiverSt) (lane : Fin 2) (signal : Signal)
    (h : st.buffer = none) :
    Transceiver.pool_samples_to_buff orx st = (.error .NoRxBuff, [])
    ∧ Transceiver.read orx st lane = (.error .NoRxBuff, [])
    ∧ Transceiver.write otx st lane signal = (.error .NoTxBuff, [])
    ∧ Transceiver.push_samples_to_device otx st = (.error .NoTxBuff, []) := by
  unfold Transceiver.pool_samples_to_buff Transceiver.read Transceiver.write
    Transceiver.push_samples_to_device
  rw [h]
  exact ⟨rfl, rfl, rfl, rfl⟩

/-- State of a transceiver holding no buffer, with both lanes disabled. -/
def stNoBuf : TransceiverSt := ⟨none, fun _ => ⟨false, false⟩⟩

/-- State of a transceiver holding a 1024-frame non-cyclic buffer. -/
def stWithBuf : TransceiverSt := ⟨some ⟨1024, false⟩, fun _ => ⟨false, false⟩⟩

/-- Receive access layer that always succeeds, delivering empty sample lists. -/
def rxOracle0 : RxOracle := ⟨.ok 0, fun _ _ => .ok []⟩

/-- Transmit access layer that always succeeds, reporting zero-count writes. -/
def txOracle0 : TxOracle := ⟨.ok 0, fun _ _ _ => .ok 0⟩

/-- Empty signal used in concrete instantiations. -/
def sig0 : Signal := ⟨[], []⟩

/-- Witness for C1: on a concrete bufferless transceiver the four streaming
operations fail with NoRxBuff and NoTxBuff and no hardware access, for lane 0
and lane 1 alike. -/
theorem c1_nobuffer_streaming_fails_witness :
    (Transceiver.pool_samples_to_buff rxOracle0 stNoBuf = (.error .NoRxBuff, [])
      ∧ Transceiver.read rxOracle0 stNoBuf 0 = (.error .NoRxBuff, [])
      ∧ Transceiver.write txOracle0 stNoBuf 0 sig0 = (.error .NoTxBuff, [])
      ∧ Transceiver.push_samples_to_device txOracle0 stNoBuf = (.error .NoTxBuff, []))
    ∧ (Transceiver.read rxOracle0 stNoBuf 1 = (.error .NoRxBuff, [])
      ∧ Transceiver.write txOracle0 stNoBuf 1 sig0 = (.error .NoTxBuff, [])) :=
  ⟨c1_nobuffer_streaming_fails rxOracle0 txOracle0 stNoBuf 0 sig0 rfl,
   ⟨(c1_nobuffer_streaming_fails rxOracle0 txOracle0 stNoBuf 1 sig0 rfl).2.1,
    (c1_nobuffer_streaming_fails rxOracle0 txOracle0 stNoBuf 1 sig0 rfl).2.2.1⟩⟩

/-- C2: for every receive transceiver and every access layer, create_buffer
with 1024 frames non-cyclic followed by destroy_buffer leaves the buffer
absent again, so a subsequent read of lane 0 fails with NoRxBuff and touches
no hardware — exactly as a read does on any state with no buffer. -/
theorem c2_create_destroy_returns_to_nobuffer
    (alloc : Nat → Bool → Except IIOErr Buffer) (orx : RxOracle)
    (st : TransceiverSt) :
    (Transceiver.destroy_buffer
        (Transceiver.create_buffer alloc 1024 false st).2).buffer = none
    ∧ Transceiver.read orx
        (Transceiver.destroy_buffer (Transceiver.create_buffer alloc 1024 false st).2) 0
        = (.error .NoRxBuff, [])
    ∧ Transceiver.read orx { st with buffer := none } 0 = (.error .NoRxBuff, []) := by
  cases h : alloc 1024 false <;>
    simp [Transceiver.create_buffer, Transceiver.destroy_buffer, Transceiver.read, h]

/-- C8: dropping a Transceiver, in any state, first releases the buffer (the
release event appears, and only when a buffer was held) and then disables both
lanes (lane 0 then lane 1, I then Q sub-channel each); the final state holds
no buffer and has every lane fully disabled. -/
theorem c8_drop_releases_buffer_then_disables (st : TransceiverSt) :
    (Transceiver.drop st).1.buffer = none
    ∧ (∀ i : Fin 2, (Transceiver.drop st).1.lanes i = ⟨false, false⟩)
    ∧ (Transceiver.drop st).2 =
        (if st.buffer.isSome then [HwEvent.releaseBuffer] else [])
          ++ [.chanDisable 0 true, .chanDisable 0 false,
              .chanDisable 1 true, .chanDisable 1 false] := by
  refine ⟨rfl, ?_, ?_⟩
  · intro i
    fin_cases i <;>
      simp [Transceiver.drop, Transceiver.disable, Function.update]
  · cases h : st.buffer <;>
      simp [Transceiver.drop, Transceiver.disable, h]

/-- C10: on a transceiver already holding a buffer, create_buffer does not
fail because of the existing buffer: if the access-layer allocation succeeds
the new buffer replaces the old one and the call returns Ok, and if the
allocation fails the error is propagated and the previously held buffer is
left in place unchanged. -/
theorem c10_create_buffer_replaces (alloc : Nat → Bool → Except IIOErr Buffer)
    (sample_count : Nat) (cyclic : Bool) (st : TransceiverSt) (old : Buffer)
    (_h : st.buffer = some old) :
    (∀ b, alloc sample_count cyclic = .ok b →
      Transceiver.create_buffer alloc sample_count cyclic st
        = (.ok (), { st with buffer := some b }))
    ∧ (∀ e, alloc sample_count cyclic = .error e →
      Transceiver.create_buffer alloc sample_count cyclic st
        = (.error (.GeneralIIOError e), st)) := by
  constructor
  · intro b hb
    simp [Transceiver.create_buffer, hb]
  · intro e he
    simp [Transceiver.create_buffer, he]

/-- Allocation oracle that always succeeds, returning a buffer with the
requested parameters. -/
def allocOk : Nat → Bool → Except IIOErr Buffer := fun n c => .ok ⟨n, c⟩

/-- Allocation oracle that always fails with iio error 7. -/
def allocFail : Nat → Bool → Except IIOErr Buffer := fun _ _ => .error ⟨7⟩

/-- Witness for C10: on a transceiver holding a 1024-frame buffer, a
succeeding 256-frame cyclic allocation replaces the buffer and returns Ok,
while a failing allocation propagates the error and leaves the state alone. -/
theorem c10_create_buffer_replaces_witness :
    Transceiver.create_buffer allocOk 256 true stWithBuf
      = (.ok (), { stWithBuf with buffer := some ⟨256, true⟩ })
    ∧ Transceiver.create_buffer allocFail 256 true stWithBuf
      = (.error (.GeneralIIOError ⟨7⟩), stWithBuf) :=
  ⟨(c10_create_buffer_replaces allocOk 256 true stWithBuf ⟨1024, false⟩ rfl).1
      ⟨256, true⟩ rfl,
   (c10_create_buffer_replaces allocFail 256 true stWithBuf ⟨1024, false⟩ rfl).2
      ⟨7⟩ rfl⟩

/-- Channel handle resolved through the access layer; opaque to the core. -/
structure Chan where
  id : Nat
deriving DecidableEq

/-- Device handle: an identity together with the access layer's channel
resolution (Device::find_channel, by identifier and output flag). -/
structure Device where
  id : Nat
  findChannel : String → Bool → Option Chan

/-- Context of the access layer: device resolution by logical name
(Context::find_device). -/
structure Context where
  findDevice : String → Option Device

/-- PHY_NAME from src/lib.rs: logical name of the control device. -/
def PHY_NAME : String := "ad9361-phy"

/-- DDS_NAME from src/lib.rs: logical name of the transmit data device. -/
def DDS_NAME : String := "cf-ad9361-dds-core-lpc"

/-- LPC_NAME from src/lib.rs: logical name of the receive data device. -/
def LPC_NAME : String := "cf-ad9361-lpc"

/-- Resolution attempt performed during facade construction, in order. -/
inductive BuildEvent
  | findDevice (name : String)
  | findChannel (devId : Nat) (name : String) (output : Bool)
deriving DecidableEq

/-- IQChannel from src/lib.rs; the direction marker is type-level and elided. -/
structure IQChannel where
  i : Chan
  q : Chan
deriving DecidableEq

/-- Channel struct from src/lib.rs (the per-lane pair of a control sub-channel
and an I/Q data pair); named LaneChannel here to distinguish it from the
validated-setter Channel of src/channel.rs embedded above. -/
structure LaneChannel where
  data : IQChannel
  control : Chan
deriving DecidableEq

/-- Transceiver as assembled by AD9361::from_ctx: its data device, its
local-oscillator channel, its two lanes in order, and its (initially absent)
buffer. -/
structure TransceiverDev where
  device : Device
  lo : Chan
  channels : LaneChannel × LaneChannel
  buffer : Option Buffer

/-- AD9361 facade from src/lib.rs. -/
structure AD9361 where
  control_device : Device
  rx : TransceiverDev
  tx : TransceiverDev

/-- One resolution step of facade construction: the attempt is recorded; a
missing result aborts the build with the given error (the ok_or plus
question-mark pattern of the source), otherwise the build continues. -/
def buildStep {α β : Type} (ev : BuildEvent) (res : Option α) (err : Error)
    (tr : List BuildEvent)
    (k : α → List BuildEvent → Except Error β × List BuildEvent) :
    Except Error β × List BuildEvent :=
  match res with
  | none => (.error err, tr ++ [ev])
  | some x => k x (tr ++ [ev])

/-- AD9361::from_ctx from src/lib.rs: resolves, in source order, the control
(phy) device, the receive (lpc) and transmit (dds) data devices, the receive
and transmit local-oscillator channels on the control device, then each lane's
I and Q data channels and control channel for receive and for transmit; the
first missing resolution aborts the whole build with its not-found error. The
ordered list of resolution attempts is returned alongside the result. -/
def AD9361.from_ctx (ctx : Context) : Except Error AD9361 × List BuildEvent :=
  buildStep (.findDevice PHY_NAME) (ctx.findDevice PHY_NAME)
      (.NoSuchDevice .Phy) [] fun control_device tr =>
  buildStep (.findDevice LPC_NAME) (ctx.findDevice LPC_NAME)
      (.NoSuchDevice .Lpc) tr fun rx_device tr =>
  buildStep (.findDevice DDS_NAME) (ctx.findDevice DDS_NAME)
      (.NoSuchDevice .Dds) tr fun tx_device tr =>
  buildStep (.findChannel control_device.id "altvoltage0" true)
      (control_device.findChannel "altvoltage0" true)
      .NoChannelOnDevice tr fun rx_lo tr =>
  buildStep (.findChannel control_device.id "altvoltage1" true)
      (control_device.findChannel "altvoltage1" true)
      .NoChannelOnDevice tr fun tx_lo tr =>
  buildStep (.findChannel rx_device.id "voltage0" false)
      (rx_device.findChannel "voltage0" false)
      .NoChannelOnDevice tr fun rx0i tr =>
  buildStep (.findChannel rx_device.id "voltage1" false)
      (rx_device.findChannel "voltage1" false)
      .NoChannelOnDevice tr fun rx0q tr =>
  buildStep (.findChannel control_device.id "voltage0" false)
      (control_device.findChannel "voltage0" false)
      .NoChannelOnDevice tr fun rx0c tr =>
  buildStep (.findChannel rx_device.id "voltage2" false)
      (rx_device.findChannel "voltage2" false)
      .NoChannelOnDevice tr fun rx1i tr =>
  buildStep (.findChannel rx_device.id "voltage3" false)
      (rx_device.findChannel "voltage3" false)
      .NoChannelOnDevice tr fun rx1q tr =>
  buildStep (.findChannel control_device.id "voltage1" false)
      (control_device.findChannel "voltage1" false)
      .NoChannelOnDevice tr fun rx1c tr =>
  buildStep (.findChannel tx_device.id "voltage0" true)
      (tx_device.findChannel "voltage0" true)
      .NoChannelOnDevice tr fun tx0i tr =>
  buildStep (.findChannel tx_device.id "voltage1" true)
      (tx_device.findChannel "voltage1" true)
      .NoChannelOnDevice tr fun tx0q tr =>
  buildStep (.findChannel control_device.id "voltage0" true)
      (control_device.findChannel "voltage0" true)
      .NoChannelOnDevice tr fun tx0c tr =>
  buildStep (.findChannel tx_device.id "voltage2" true)
      (tx_device.findChannel "voltage2" true)
      .NoChannelOnDevice tr fun tx1i tr =>
  buildStep (.findChannel tx_device.id "voltage3" true)
      (tx_device.findChannel "voltage3" true)
      .NoChannelOnDevice tr fun tx1q tr =>
  buildStep (.findChannel control_device.id "voltage1" true)
      (control_device.findChannel "voltage1" true)
      .NoChannelOnDevice tr fun tx1c tr =>
  (.ok ⟨control_device,
        ⟨rx_device, rx_lo, (⟨⟨rx0i, rx0q⟩, rx0c⟩, ⟨⟨rx1i, rx1q⟩, rx1c⟩), none⟩,
        ⟨tx_device, tx_lo, (⟨⟨tx0i, tx0q⟩, tx0c⟩, ⟨⟨tx1i, tx1q⟩, tx1c⟩), none⟩⟩,
   tr)

/-- Inversion lemma for a successful build step: success requires the resolved
option to be populated and the continuation to succeed from the extended trace. -/
theorem buildStep_fst_ok {α β : Type} {ev : BuildEvent} {res : Option α}
    {err : Error} {tr : List BuildEvent}
    {k : α → List BuildEvent → Except Error β × List BuildEvent} {a : β}
    (h : (buildStep ev res err tr k).1 = .ok a) :
    ∃ x, res = some x ∧ (k x (tr ++ [ev])).1 = .ok a := by
  cases res with
  | none => simp [buildStep] at h
  | some x => exact ⟨x, rfl, h⟩

/-- C7: facade construction against a context missing the control (phy)
device fails with NoSuchDevice Phy having attempted only the one device
lookup — in particular before any channel resolution; and no partially built
facade is ever returned: a successfully returned facade has every device,
every oscillator channel and every lane channel resolved from the context
(and both buffers absent), so the first missing resolution aborts the build. -/
theorem c7_from_ctx_all_or_nothing (ctx : Context) :
    (ctx.findDevice PHY_NAME = none →
      AD9361.from_ctx ctx = (.error (.NoSuchDevice .Phy), [.findDevice PHY_NAME]))
    ∧ (∀ a, (AD9361.from_ctx ctx).1 = .ok a →
        ctx.findDevice PHY_NAME = some a.control_device
        ∧ ctx.findDevice LPC_NAME = some a.rx.device
        ∧ ctx.findDevice DDS_NAME = some a.tx.device
        ∧ a.control_device.findChannel "altvoltage0" true = some a.rx.lo
        ∧ a.control_device.findChannel "altvoltage1" true = some a.tx.lo
        ∧ a.rx.device.findChannel "voltage0" false = some a.rx.channels.1.data.i
        ∧ a.rx.device.findChannel "voltage1" false = some a.rx.channels.1.data.q
        ∧ a.control_device.findChannel "voltage0" false = some a.rx.channels.1.control
        ∧ a.rx.device.findChannel "voltage2" false = some a.rx.channels.2.data.i
        ∧ a.rx.device.findChannel "voltage3" false = some a.rx.channels.2.data.q
        ∧ a.control_device.findChannel "voltage1" false = some a.rx.channels.2.control
        ∧ a.tx.device.findChannel "voltage0" true = some a.tx.channels.1.data.i
        ∧ a.tx.device.findChannel "voltage1" true = some a.tx.channels.1.data.q
        ∧ a.control_device.findChannel "voltage0" true = some a.tx.channels.1.control
        ∧ a.tx.device.findChannel "voltage2" true = some a.tx.channels.2.data.i
        ∧ a.tx.device.findChannel "voltage3" true = some a.tx.channels.2.data.q
        ∧ a.control_device.findChannel "voltage1" true = some a.tx.channels.2.control
        ∧ a.rx.buffer = none
        ∧ a.tx.buffer = none) := by
  constructor
  · intro h
    unfold AD9361.from_ctx
    rw [h]
    rfl
  · intro a h
    unfold AD9361.from_ctx at h
    obtain ⟨control_device, h1, h⟩ := buildStep_fst_ok h
    obtain ⟨rx_device, h2, h⟩ := buildStep_fst_ok h
    obtain ⟨tx_device, h3, h⟩ := buildStep_fst_ok h
    obtain ⟨rx_lo, h4, h⟩ := buildStep_fst_ok h
    obtain ⟨tx_lo, h5, h⟩ := buildStep_fst_ok h
    obtain ⟨rx0i, h6, h⟩ := buildStep_fst_ok h
    obtain ⟨rx0q, h7, h⟩ := buildStep_fst_ok h
    obtain ⟨rx0c, h8, h⟩ := buildStep_fst_ok h
    obtain ⟨rx1i, h9, h⟩ := buildStep_fst_ok h
    obtain ⟨rx1q, h10, h⟩ := buildStep_fst_ok h
    obtain ⟨rx1c, h11, h⟩ := buildStep_fst_ok h
    obtain ⟨tx0i, h12, h⟩ := buildStep_fst_ok h
    obtain ⟨tx0q, h13, h⟩ := buildStep_fst_ok h
    obtain ⟨tx0c, h14, h⟩ := buildStep_fst_ok h
    obtain ⟨tx1i, h15, h⟩ := buildStep_fst_ok h
    obtain ⟨tx1q, h16, h⟩ := buildStep_fst_ok h
    obtain ⟨tx1c, h17, h⟩ := buildStep_fst_ok h
    injection h with h18
    subst h18
    exact ⟨h1, h2, h3, h4, h5, h6, h7, h8, h9, h10, h11, h12, h13, h14, h15,
      h16, h17, rfl, rfl⟩

/-- Context in which no device resolves. -/
def emptyCtx : Context := ⟨fun _ => none⟩

/-- Witness for C7: against a context that resolves no device, construction
fails with NoSuchDevice Phy after exactly the one control-device lookup. -/
theorem c7_from_ctx_all_or_nothing_witness :
    AD9361.from_ctx emptyCtx
      = (.error (.NoSuchDevice .Phy), [.findDevice PHY_NAME]) :=
  (c7_from_ctx_all_or_nothing emptyCtx).1 rfl
